import Mathlib

/-!
Shallow embedding of the grades microservice (BetterGR/grades-microservice).

The embedding covers the store-backed data-access layer (`server/db.go`,
type `Database`), the in-memory test double (`server/db_test.go`, type
`MockDatabase`), and the service layer (`server/server.go`, type
`GradesServer`).

Modelling conventions:
  - The backing PostgreSQL store is modelled as a list of rows plus a
    supply of generated identifiers (`nextID`, standing in for
    `uuid_generate_v4()`), a clock (`now`, standing in for
    `current_timestamp`), and a counter of SQL statements issued
    (`queries`).  A healthy store is assumed: connectivity failures are
    out of scope, and a statement that the engine executes successfully
    is modelled by its SQL semantics (INSERT appends, UPDATE by primary
    key rewrites matching rows).  The object-relational mapper (bun)
    refuses to execute an UPDATE or DELETE built without any Where
    clause ('bun: Update and Delete queries require at least one
    Where'), so such a query errors before any statement reaches the
    store.
  - Timestamps are natural-number ticks.
  - Go `nil` pointers to wire messages are `Option`; proto3 getters on
    `nil` return the empty string.
-/

/-- Wire message `SingleGrade` (`gpb.SingleGrade`): nine string fields,
as used by `server.go` and the proto contract. -/
structure SingleGrade where
  GradeID : String
  StudentID : String
  CourseID : String
  Semester : String
  GradeType : String
  ItemID : String
  GradeValue : String
  GradedBy : String
  Comments : String
deriving DecidableEq, Repr

/-- Proto3 nil-safe getter `GetGradeID` on a possibly-nil `*SingleGrade`. -/
def GetGradeID : Option SingleGrade → String
  | none => ""
  | some g => g.GradeID

/-- Row type `Grade` of the grades table (`server/db.go`): the nine wire
fields plus the two store-defaulted timestamps. -/
structure Grade where
  GradeID : String
  StudentID : String
  CourseID : String
  Semester : String
  GradeType : String
  ItemID : String
  GradeValue : String
  GradedBy : String
  GradedAt : Nat
  UpdatedAt : Nat
  Comments : String
deriving DecidableEq, Repr

/-- Typed failures of the data-access layer: the four sentinel errors
declared in `server/db.go`, the `sql.ErrNoRows` outcome of the
select-by-primary-key inside `UpdateGrade`, the mapper's refusal of an
Update/Delete query built without any Where clause, and the
`ErrGradeNotFound` sentinel declared in `server/db_test.go` for the
mock. -/
inductive DbError where
  | gradeNil
  | studentIDEmpty
  | courseIDEmpty
  | gradeIDEmpty
  | noRows
  | noWhereClause
  | gradeNotFound
deriving DecidableEq, Repr

deriving instance DecidableEq for Except

/-- The error taxonomy of spec section 7. -/
inductive ErrorCategory where
  | invalidArgument
  | notFound
  | internal
deriving DecidableEq, Repr

/-- Classification of each typed data-access failure under the spec's
taxonomy: missing/empty required identity or field is `InvalidArgument`;
no matching record for a targeted identity is `NotFound`; the mapper's
refusal of a where-less query is an unexpected backing-store failure,
`Internal`. -/
def DbError.category : DbError → ErrorCategory
  | .gradeNil => .invalidArgument
  | .studentIDEmpty => .invalidArgument
  | .courseIDEmpty => .invalidArgument
  | .gradeIDEmpty => .invalidArgument
  | .noRows => .notFound
  | .noWhereClause => .internal
  | .gradeNotFound => .notFound

/-- Identifier generated by the store default `uuid_generate_v4()`,
modelled as a distinct string per draw from the supply. -/
def genID (n : Nat) : String := "grade-" ++ toString n

/-- State of the store-backed `Database`: table rows, the generated-id
supply, the clock, and the number of SQL statements issued so far. -/
structure DbState where
  rows : List Grade
  nextID : Nat
  now : Nat
  queries : Nat
deriving DecidableEq, Repr

/-- The empty store. -/
def dbState0 : DbState := { rows := [], nextID := 0, now := 0, queries := 0 }

/-- `Database.AddGrade` (`server/db.go` lines 129-150): rejects a nil
grade, otherwise builds a row from the request's fields — note the Go
code copies the eight non-identity fields but never copies
`grade.GetGradeID()` and never checks `student_id`/`course_id` for
emptiness — and executes one INSERT.  The zero-valued columns with a
`default:` tag (`grade_id`, `graded_at`, `updated_at`) are filled by the
store defaults, which the model renders as `genID`/`now`. -/
def Database.AddGrade (st : DbState) (grade : Option SingleGrade) :
    Except DbError Grade × DbState :=
  match grade with
  | none => (.error .gradeNil, st)
  | some g =>
    let newGrade : Grade := {
      GradeID := genID st.nextID
      StudentID := g.StudentID
      CourseID := g.CourseID
      Semester := g.Semester
      GradeType := g.GradeType
      ItemID := g.ItemID
      GradeValue := g.GradeValue
      GradedBy := g.GradedBy
      GradedAt := st.now
      UpdatedAt := st.now
      Comments := g.Comments }
    (.ok newGrade,
      { st with rows := st.rows ++ [newGrade], nextID := st.nextID + 1,
                queries := st.queries + 1 })

/-- `Database.GetCourseGrades` (`server/db.go` lines 153-165): returns
`ErrCourseIDEmpty` before issuing any query when `courseID` is empty,
otherwise one SELECT filtered on `course_id` and `semester`. -/
def Database.GetCourseGrades (st : DbState) (courseID semester : String) :
    Except DbError (List Grade) × DbState :=
  if courseID = "" then (.error .courseIDEmpty, st)
  else
    (.ok (st.rows.filter (fun g => g.CourseID == courseID && g.Semester == semester)),
      { st with queries := st.queries + 1 })

/-- `Database.GetStudentCourseGrades` (`server/db.go` lines 168-182):
returns `ErrStudentIDEmpty` before issuing any query when `studentID` is
empty, otherwise one SELECT filtered on all three fields. -/
def Database.GetStudentCourseGrades (st : DbState)
    (courseID semester studentID : String) :
    Except DbError (List Grade) × DbState :=
  if studentID = "" then (.error .studentIDEmpty, st)
  else
    (.ok (st.rows.filter (fun g =>
        g.CourseID == courseID && g.Semester == semester && g.StudentID == studentID)),
      { st with queries := st.queries + 1 })

/-- Merge helper `updateField` inside `Database.UpdateGrade`: a field is
overwritten only when the requested value is non-empty. -/
def updateField (old newValue : String) : String :=
  if newValue ≠ "" then newValue else old

/-- SQL `UPDATE ... WHERE grade_id = gid`: every row whose primary key
matches is replaced by the merged row. -/
def replaceByID (rows : List Grade) (gid : String) (u : Grade) : List Grade :=
  rows.map (fun r => if r.GradeID == gid then u else r)

/-- `Database.UpdateGrade` (`server/db.go` lines 185-221): rejects a nil
grade and an empty `grade_id`; issues a SELECT by primary key (a miss is
`sql.ErrNoRows`); merges each of the eight non-identity fields with
`updateField`; issues an UPDATE by primary key.  Note the Go code never
assigns `existingGrade.UpdatedAt`, so the stored `updated_at` value is
written back unchanged. -/
def Database.UpdateGrade (st : DbState) (grade : Option SingleGrade) :
    Except DbError Grade × DbState :=
  match grade with
  | none => (.error .gradeNil, st)
  | some g =>
    if g.GradeID = "" then (.error .gradeIDEmpty, st)
    else
      match st.rows.find? (fun r => r.GradeID == g.GradeID) with
      | none => (.error .noRows, { st with queries := st.queries + 1 })
      | some existingGrade =>
        let updated : Grade := { existingGrade with
          StudentID := updateField existingGrade.StudentID g.StudentID
          CourseID := updateField existingGrade.CourseID g.CourseID
          Semester := updateField existingGrade.Semester g.Semester
          GradeType := updateField existingGrade.GradeType g.GradeType
          ItemID := updateField existingGrade.ItemID g.ItemID
          GradeValue := updateField existingGrade.GradeValue g.GradeValue
          GradedBy := updateField existingGrade.GradedBy g.GradedBy
          Comments := updateField existingGrade.Comments g.Comments }
        (.ok updated,
          { st with rows := replaceByID st.rows g.GradeID updated,
                    queries := st.queries + 2 })

/-- `Database.RemoveGrade` (`server/db.go` lines 224-235): rejects an
empty `grade_id`; otherwise it builds `NewDelete().Model(grade)` with
the primary key set but — unlike the sibling `UpdateGrade` — never calls
`WherePK()`, so the delete query has no Where clause and the mapper
refuses to execute it.  `Exec` therefore fails for every non-empty
`grade_id` before any SQL statement reaches the store: no row is ever
removed and the state is unchanged. -/
def Database.RemoveGrade (st : DbState) (gradeID : String) :
    Except DbError Unit × DbState :=
  if gradeID = "" then (.error .gradeIDEmpty, st)
  else (.error .noWhereClause, st)

/-- `Database.GetStudentSemesterGrades` (`server/db.go` lines 238-250):
returns `ErrStudentIDEmpty` before issuing any query when `studentID` is
empty, otherwise one SELECT filtered on `student_id` and `semester`. -/
def Database.GetStudentSemesterGrades (st : DbState)
    (studentID semester : String) :
    Except DbError (List Grade) × DbState :=
  if studentID = "" then (.error .studentIDEmpty, st)
  else
    (.ok (st.rows.filter (fun g => g.StudentID == studentID && g.Semester == semester)),
      { st with queries := st.queries + 1 })

/-- State of the in-memory `MockDatabase` of `server/db_test.go`: a map
from `grade_id` to row (rendered as a list keyed by `GradeID`), plus the
generated-id supply and the clock used for `time.Now()`. -/
structure MockState where
  grades : List Grade
  nextID : Nat
  now : Nat
deriving DecidableEq, Repr

/-- The empty mock store (`NewMockDatabase`). -/
def mockState0 : MockState := { grades := [], nextID := 0, now := 0 }

/-- Go map assignment `m.grades[gid] = g`: replaces the entry when the
key is present, inserts it otherwise. -/
def mapInsert (grades : List Grade) (g : Grade) : List Grade :=
  if grades.any (fun r => r.GradeID == g.GradeID) then
    grades.map (fun r => if r.GradeID == g.GradeID then g else r)
  else grades ++ [g]

/-- `MockDatabase.AddGrade` (`server/db_test.go` lines 238-276): rejects
a nil grade, an empty `student_id` and an empty `course_id`; keeps the
supplied `grade_id` when non-empty and draws a fresh one otherwise; sets
both timestamps to the current time; stores the row under its id. -/
def MockDatabase.AddGrade (st : MockState) (grade : Option SingleGrade) :
    Except DbError Grade × MockState :=
  match grade with
  | none => (.error .gradeNil, st)
  | some g =>
    if g.StudentID = "" then (.error .studentIDEmpty, st)
    else if g.CourseID = "" then (.error .courseIDEmpty, st)
    else
      let gradeID := if g.GradeID = "" then genID st.nextID else g.GradeID
      let dbGrade : Grade := {
        GradeID := gradeID
        StudentID := g.StudentID
        CourseID := g.CourseID
        Semester := g.Semester
        GradeType := g.GradeType
        ItemID := g.ItemID
        GradeValue := g.GradeValue
        GradedBy := g.GradedBy
        GradedAt := st.now
        UpdatedAt := st.now
        Comments := g.Comments }
      (.ok dbGrade,
        { st with grades := mapInsert st.grades dbGrade, nextID := st.nextID + 1 })

/-- `MockDatabase.GetCourseGrades` (`server/db_test.go` lines 279-292):
no key validation; returns every stored row matching both fields. -/
def MockDatabase.GetCourseGrades (st : MockState) (courseID semester : String) :
    Except DbError (List Grade) × MockState :=
  (.ok (st.grades.filter (fun g => g.CourseID == courseID && g.Semester == semester)), st)

/-- `MockDatabase.GetStudentCourseGrades` (`server/db_test.go` lines
295-311): returns every stored row matching all three fields. -/
def MockDatabase.GetStudentCourseGrades (st : MockState)
    (courseID semester studentID : String) :
    Except DbError (List Grade) × MockState :=
  (.ok (st.grades.filter (fun g =>
      g.CourseID == courseID && g.Semester == semester && g.StudentID == studentID)), st)

/-- `MockDatabase.UpdateGrade` (`server/db_test.go` lines 314-371,
including `updateGradeFields`): rejects a nil grade and an empty
`grade_id`; a missing key is `ErrGradeNotFound`; each non-empty request
field overwrites the stored one and `UpdatedAt` is set to the current
time. -/
def MockDatabase.UpdateGrade (st : MockState) (grade : Option SingleGrade) :
    Except DbError Grade × MockState :=
  match grade with
  | none => (.error .gradeNil, st)
  | some g =>
    if g.GradeID = "" then (.error .gradeIDEmpty, st)
    else
      match st.grades.find? (fun r => r.GradeID == g.GradeID) with
      | none => (.error .gradeNotFound, st)
      | some existing =>
        let updated : Grade := { existing with
          StudentID := updateField existing.StudentID g.StudentID
          CourseID := updateField existing.CourseID g.CourseID
          Semester := updateField existing.Semester g.Semester
          GradeType := updateField existing.GradeType g.GradeType
          ItemID := updateField existing.ItemID g.ItemID
          GradeValue := updateField existing.GradeValue g.GradeValue
          GradedBy := updateField existing.GradedBy g.GradedBy
          Comments := updateField existing.Comments g.Comments
          UpdatedAt := st.now }
        (.ok updated, { st with grades := replaceByID st.grades g.GradeID updated })

/-- `MockDatabase.RemoveGrade` (`server/db_test.go` lines 374-389):
rejects an empty `grade_id`; a missing key is `ErrGradeNotFound`;
otherwise deletes the entry. -/
def MockDatabase.RemoveGrade (st : MockState) (gradeID : String) :
    Except DbError Unit × MockState :=
  if gradeID = "" then (.error .gradeIDEmpty, st)
  else if st.grades.any (fun r => r.GradeID == gradeID) then
    (.ok (), { st with grades := st.grades.filter (fun r => !(r.GradeID == gradeID)) })
  else (.error .gradeNotFound, st)

/-- `MockDatabase.GetStudentSemesterGrades` (`server/db_test.go` lines
392-405): returns every stored row matching both fields. -/
def MockDatabase.GetStudentSemesterGrades (st : MockState)
    (studentID semester : String) :
    Except DbError (List Grade) × MockState :=
  (.ok (st.grades.filter (fun g => g.StudentID == studentID && g.Semester == semester)), st)

/-- The `DBInterface` of `server/server.go` lines 26-33, as a record of
operations over an abstract store state, satisfied by both the
store-backed `Database` and the `MockDatabase`. -/
structure DBImpl (σ : Type) where
  addGrade : σ → Option SingleGrade → Except DbError Grade × σ
  getCourseGrades : σ → String → String → Except DbError (List Grade) × σ
  getStudentCourseGrades : σ → String → String → String → Except DbError (List Grade) × σ
  updateGrade : σ → Option SingleGrade → Except DbError Grade × σ
  removeGrade : σ → String → Except DbError Unit × σ
  getStudentSemesterGrades : σ → String → String → Except DbError (List Grade) × σ

/-- The store-backed implementation (`Database` in `server/db.go`). -/
def realDB : DBImpl DbState := {
  addGrade := Database.AddGrade
  getCourseGrades := Database.GetCourseGrades
  getStudentCourseGrades := Database.GetStudentCourseGrades
  updateGrade := Database.UpdateGrade
  removeGrade := Database.RemoveGrade
  getStudentSemesterGrades := Database.GetStudentSemesterGrades }

/-- The in-memory implementation (`MockDatabase` in `server/db_test.go`). -/
def mockDB : DBImpl MockState := {
  addGrade := MockDatabase.AddGrade
  getCourseGrades := MockDatabase.GetCourseGrades
  getStudentCourseGrades := MockDatabase.GetStudentCourseGrades
  updateGrade := MockDatabase.UpdateGrade
  removeGrade := MockDatabase.RemoveGrade
  getStudentSemesterGrades := MockDatabase.GetStudentSemesterGrades }

/-- Authentication environment of `GradesServer.VerifyToken`
(`server/server.go` lines 45-56): when a `Claims` value is injected the
check always succeeds; otherwise the external base-service verifier
decides the token. -/
structure AuthEnv where
  claimsInjected : Bool
  baseVerify : String → Bool

/-- `GradesServer.VerifyToken`: `true` means the token is accepted. -/
def VerifyToken (env : AuthEnv) (token : String) : Bool :=
  env.claimsInjected || env.baseVerify token

/-- Errors returned by the service layer: either the early
`authentication failed` error wrapping a `codes.Unauthenticated` status,
or a plain `fmt.Errorf` wrap of a data-access failure carrying the
operation message and the underlying error.  No other error shape occurs
in `server/server.go`. -/
inductive ServerError where
  | unauthenticated (msg : String)
  | wrapped (op : String) (e : DbError)
deriving DecidableEq, Repr

/-- Status codes as seen on the wire by a gRPC caller.  An error built
with `status.Error` carries its code; a plain wrapped error surfaces as
`codes.Unknown`. -/
inductive WireCode where
  | unauthenticatedCode
  | invalidArgumentCode
  | notFoundCode
  | internalCode
  | unknownCode
deriving DecidableEq, Repr

/-- Wire status code of each service-layer error: only the
authentication failure is built with `status.Error`
(`codes.Unauthenticated`); every data-access failure is wrapped with
`fmt.Errorf` and therefore reaches the caller as `codes.Unknown`. -/
def ServerError.wireCode : ServerError → WireCode
  | .unauthenticated _ => .unauthenticatedCode
  | .wrapped _ _ => .unknownCode

/-- Wire requests, with the fields the handlers read. -/
structure AddSingleGradeRequest where
  token : String
  grade : Option SingleGrade
deriving DecidableEq, Repr

structure UpdateSingleGradeRequest where
  token : String
  grade : Option SingleGrade
deriving DecidableEq, Repr

structure RemoveSingleGradeRequest where
  token : String
  gradeID : String
deriving DecidableEq, Repr

structure GetCourseGradesRequest where
  token : String
  courseID : String
  semester : String
deriving DecidableEq, Repr

structure GetStudentCourseGradesRequest where
  token : String
  courseID : String
  semester : String
  studentID : String
deriving DecidableEq, Repr

structure GetStudentSemesterGradesRequest where
  token : String
  studentID : String
  semester : String
deriving DecidableEq, Repr

/-- Mapping of a stored row back to the wire message, as written inline
in `UpdateSingleGrade` and in `createGradesResponse`. -/
def Grade.toSingleGrade (g : Grade) : SingleGrade := {
  GradeID := g.GradeID
  StudentID := g.StudentID
  CourseID := g.CourseID
  Semester := g.Semester
  GradeType := g.GradeType
  ItemID := g.ItemID
  GradeValue := g.GradeValue
  GradedBy := g.GradedBy
  Comments := g.Comments }

/-- `GradesServer.createGradesResponse` (`server/server.go` lines
223-240). -/
def createGradesResponse (grades : List Grade) : List SingleGrade :=
  grades.map Grade.toSingleGrade

/-- Wire response of `AddSingleGrade`. -/
structure AddSingleGradeResponse where
  grade : Option SingleGrade
deriving DecidableEq, Repr

/-- Wire response of `UpdateSingleGrade`. -/
structure UpdateSingleGradeResponse where
  grade : Option SingleGrade
deriving DecidableEq, Repr

/-- Each handler returns its wire result, the store state after the
call, and the number of data-access operations it invoked. -/
abbrev RpcResult (σ α : Type) := Except ServerError α × σ × Nat

/-- `GradesServer.AddSingleGrade` (`server/server.go` lines 125-143):
verifies the token (failure aborts before any data access), invokes
`AddGrade` — discarding the returned persisted row — and on success
echoes `req.GetGrade()` back in the response. -/
def GradesServer.AddSingleGrade {σ : Type} (impl : DBImpl σ) (env : AuthEnv)
    (st : σ) (req : AddSingleGradeRequest) : RpcResult σ AddSingleGradeResponse :=
  if VerifyToken env req.token then
    match impl.addGrade st req.grade with
    | (.error e, st1) => (.error (.wrapped "failed to add single grade" e), st1, 1)
    | (.ok _, st1) => (.ok { grade := req.grade }, st1, 1)
  else (.error (.unauthenticated "authentication failed"), st, 0)

/-- `GradesServer.UpdateSingleGrade` (`server/server.go` lines 146-178):
verifies the token, invokes `UpdateGrade`, and on success maps the
returned merged row back onto the wire message. -/
def GradesServer.UpdateSingleGrade {σ : Type} (impl : DBImpl σ) (env : AuthEnv)
    (st : σ) (req : UpdateSingleGradeRequest) : RpcResult σ UpdateSingleGradeResponse :=
  if VerifyToken env req.token then
    match impl.updateGrade st req.grade with
    | (.error e, st1) => (.error (.wrapped "failed to update single grade" e), st1, 1)
    | (.ok updatedGrade, st1) =>
        (.ok { grade := some updatedGrade.toSingleGrade }, st1, 1)
  else (.error (.unauthenticated "authentication failed"), st, 0)

/-- `GradesServer.RemoveSingleGrade` (`server/server.go` lines 181-197):
verifies the token, invokes `RemoveGrade`, and on success returns the
empty response. -/
def GradesServer.RemoveSingleGrade {σ : Type} (impl : DBImpl σ) (env : AuthEnv)
    (st : σ) (req : RemoveSingleGradeRequest) : RpcResult σ Unit :=
  if VerifyToken env req.token then
    match impl.removeGrade st req.gradeID with
    | (.error e, st1) => (.error (.wrapped "failed to remove single grade" e), st1, 1)
    | (.ok _, st1) => (.ok (), st1, 1)
  else (.error (.unauthenticated "authentication failed"), st, 0)

/-- `GradesServer.GetCourseGrades` (`server/server.go` lines 77-98). -/
def GradesServer.GetCourseGrades {σ : Type} (impl : DBImpl σ) (env : AuthEnv)
    (st : σ) (req : GetCourseGradesRequest) : RpcResult σ (List SingleGrade) :=
  if VerifyToken env req.token then
    match impl.getCourseGrades st req.courseID req.semester with
    | (.error e, st1) => (.error (.wrapped "failed to get course grades" e), st1, 1)
    | (.ok grades, st1) => (.ok (createGradesResponse grades), st1, 1)
  else (.error (.unauthenticated "authentication failed"), st, 0)

/-- `GradesServer.GetStudentCourseGrades` (`server/server.go` lines
101-122). -/
def GradesServer.GetStudentCourseGrades {σ : Type} (impl : DBImpl σ) (env : AuthEnv)
    (st : σ) (req : GetStudentCourseGradesRequest) : RpcResult σ (List SingleGrade) :=
  if VerifyToken env req.token then
    match impl.getStudentCourseGrades st req.courseID req.semester req.studentID with
    | (.error e, st1) => (.error (.wrapped "failed to get student course grades" e), st1, 1)
    | (.ok grades, st1) => (.ok (createGradesResponse grades), st1, 1)
  else (.error (.unauthenticated "authentication failed"), st, 0)

/-- `GradesServer.GetStudentSemesterGrades` (`server/server.go` lines
200-221). -/
def GradesServer.GetStudentSemesterGrades {σ : Type} (impl : DBImpl σ) (env : AuthEnv)
    (st : σ) (req : GetStudentSemesterGradesRequest) : RpcResult σ (List SingleGrade) :=
  if VerifyToken env req.token then
    match impl.getStudentSemesterGrades st req.studentID req.semester with
    | (.error e, st1) => (.error (.wrapped "failed to get student semester grades" e), st1, 1)
    | (.ok grades, st1) => (.ok (createGradesResponse grades), st1, 1)
  else (.error (.unauthenticated "authentication failed"), st, 0)

/-- All-empty wire grade, as a base for concrete test fixtures. -/
def sg0 : SingleGrade :=
  { GradeID := "", StudentID := "", CourseID := "", Semester := "", GradeType := ""
    ItemID := "", GradeValue := "", GradedBy := "", Comments := "" }

/-- Create request whose `student_id` is empty. -/
def sgEmptyStudent : SingleGrade :=
  { sg0 with CourseID := "MATH101", Semester := "2025A", GradeType := "Exam", GradeValue := "A" }

/-- Create request whose `course_id` is empty. -/
def sgEmptyCourse : SingleGrade :=
  { sg0 with StudentID := "s1", Semester := "2025A", GradeType := "Exam", GradeValue := "A" }

/-- A stored row with identity `g-1`. -/
def gRow1 : Grade :=
  { GradeID := "g-1", StudentID := "s1", CourseID := "MATH101", Semester := "2025A"
    GradeType := "Exam", ItemID := "i1", GradeValue := "A", GradedBy := "prof"
    GradedAt := 5, UpdatedAt := 5, Comments := "good" }

/-- Store state holding exactly `gRow1`, with the clock at 9. -/
def st4 : DbState := { rows := [gRow1], nextID := 1, now := 9, queries := 0 }

/-- Mock state holding exactly `gRow1`, with the clock at 9. -/
def mock4 : MockState := { grades := [gRow1], nextID := 1, now := 9 }

/-- Update request populating only `grade_id` and `grade_value`. -/
def upd4 : SingleGrade := { sg0 with GradeID := "g-1", GradeValue := "B+" }

/-- Claim C1: the claim says create with an empty `student_id` or
`course_id` fails with `InvalidArgument` and persists nothing.  The
store-backed `Database.AddGrade` has no such check: on either input it
executes the INSERT, persists the row, and returns success, while the
repository's own `MockDatabase.AddGrade` rejects the same inputs with
the `InvalidArgument`-classified sentinels and leaves its store
unchanged. -/
theorem C1_db_create_accepts_empty_required_fields :
    (Database.AddGrade dbState0 (some sgEmptyStudent)).1 =
      .ok { GradeID := genID 0, StudentID := "", CourseID := "MATH101", Semester := "2025A"
            GradeType := "Exam", ItemID := "", GradeValue := "A", GradedBy := ""
            GradedAt := 0, UpdatedAt := 0, Comments := "" } ∧
    (Database.AddGrade dbState0 (some sgEmptyStudent)).2.rows.length = 1 ∧
    (Database.AddGrade dbState0 (some sgEmptyCourse)).1 =
      .ok { GradeID := genID 0, StudentID := "s1", CourseID := "", Semester := "2025A"
            GradeType := "Exam", ItemID := "", GradeValue := "A", GradedBy := ""
            GradedAt := 0, UpdatedAt := 0, Comments := "" } ∧
    (MockDatabase.AddGrade mockState0 (some sgEmptyStudent)) =
      (.error .studentIDEmpty, mockState0) ∧
    (MockDatabase.AddGrade mockState0 (some sgEmptyCourse)) =
      (.error .courseIDEmpty, mockState0) ∧
    DbError.studentIDEmpty.category = .invalidArgument ∧
    DbError.courseIDEmpty.category = .invalidArgument := by decide

/-- Claim C2: the empty `grade_id` is rejected with the
`InvalidArgument`-classified sentinel, as claimed; but deleting an
existing `grade_id` does not succeed and removes nothing — the
where-less delete of `Database.RemoveGrade` is refused by the mapper
with an `Internal`-class error and the record survives, so the
claimed success/removal and the `NotFound` retry distinction are
unreachable in the code.  The repository's own
`MockDatabase.RemoveGrade` implements exactly the claimed behavior:
success and removal first, `ErrGradeNotFound` on the retry. -/
theorem C2_remove_never_removes :
    Database.RemoveGrade st4 "" = (.error .gradeIDEmpty, st4) ∧
    DbError.gradeIDEmpty.category = .invalidArgument ∧
    (Database.RemoveGrade st4 "g-1").1 = .error .noWhereClause ∧
    (Database.RemoveGrade st4 "g-1").2 = st4 ∧
    gRow1 ∈ (Database.RemoveGrade st4 "g-1").2.rows ∧
    DbError.noWhereClause.category = .internal ∧
    (MockDatabase.RemoveGrade mock4 "g-1").1 = .ok () ∧
    (MockDatabase.RemoveGrade mock4 "g-1").2.grades = [] ∧
    (MockDatabase.RemoveGrade (MockDatabase.RemoveGrade mock4 "g-1").2 "g-1").1 =
      .error .gradeNotFound ∧
    DbError.gradeNotFound.category = .notFound := by decide

/-- Authentication environment with an injected `Claims` value, as the
repository's gRPC tests configure the server: every token verifies. -/
def envOk : AuthEnv := { claimsInjected := true, baseVerify := fun _ => false }

/-- Create request with valid required fields and no `grade_id`. -/
def sgNoID : SingleGrade :=
  { sg0 with StudentID := "s1", CourseID := "MATH101", Semester := "2025A"
             GradeType := "Exam", GradeValue := "A" }

/-- Add-grade wire request carrying `sgNoID`. -/
def req3 : AddSingleGradeRequest := { token := "t", grade := some sgNoID }

/-- Claim C3: the claim says the add-grade response contains the
persisted record with its assigned identity.  The data-access layer does
persist a row with a fresh non-empty `grade_id`, but
`GradesServer.AddSingleGrade` discards the value returned by `AddGrade`
and echoes `req.GetGrade()` back, so the response's grade still has an
empty `grade_id`. -/
theorem C3_add_response_lacks_assigned_identity :
    (GradesServer.AddSingleGrade realDB envOk dbState0 req3).1 =
      .ok { grade := some sgNoID } ∧
    GetGradeID (some sgNoID) = "" ∧
    ((GradesServer.AddSingleGrade realDB envOk dbState0 req3).2.1).rows.map
      (fun r => r.GradeID) = [genID 0] ∧
    genID 0 ≠ "" := by decide

/-- Claim C4: partial update of `grade_value` on stored row `gRow1`.
The merged row and the persisted row are identical to `gRow1` except
`grade_value` — including `updated_at`, which `Database.UpdateGrade`
never reassigns even though the clock has advanced from 5 to 9.  The
repository's own `MockDatabase.UpdateGrade` does advance `UpdatedAt` to
the current time on the same input. -/
theorem C4_update_leaves_updated_at_stale :
    (Database.UpdateGrade st4 (some upd4)).1 = .ok { gRow1 with GradeValue := "B+" } ∧
    (Database.UpdateGrade st4 (some upd4)).2.rows = [{ gRow1 with GradeValue := "B+" }] ∧
    gRow1.UpdatedAt = 5 ∧
    st4.now = 9 ∧
    (MockDatabase.UpdateGrade mock4 (some upd4)).1 =
      .ok { gRow1 with GradeValue := "B+", UpdatedAt := 9 } := by decide

/-- Update request with an empty `grade_id`. -/
def sgE : SingleGrade := sg0

/-- Update request targeting an identity absent from the store. -/
def sgMissing : SingleGrade := { sg0 with GradeID := "zzz", GradeValue := "B" }

/-- Claim C5: `Database.UpdateGrade` rejects an empty `grade_id` with
the `InvalidArgument`-classified `ErrGradeIDEmpty` before touching the
store, and when no stored row carries the requested identity the
select-by-primary-key misses (`sql.ErrNoRows`, `NotFound`-classified)
and the rows are left unchanged. -/
theorem C5_update_invalid_and_missing (st : DbState) (g : SingleGrade) :
    (g.GradeID = "" →
      Database.UpdateGrade st (some g) = (.error .gradeIDEmpty, st) ∧
      DbError.gradeIDEmpty.category = .invalidArgument) ∧
    (g.GradeID ≠ "" →
      st.rows.all (fun r => !(r.GradeID == g.GradeID)) = true →
      (Database.UpdateGrade st (some g)).1 = .error .noRows ∧
      (Database.UpdateGrade st (some g)).2.rows = st.rows ∧
      DbError.noRows.category = .notFound) := by
  constructor
  · intro h
    simp [Database.UpdateGrade, h, DbError.category]
  · intro h hall
    have hfind : st.rows.find? (fun r => r.GradeID == g.GradeID) = none := by
      rw [List.find?_eq_none]
      intro r hr
      have hx := (List.all_eq_true.mp hall) r hr
      simpa using hx
    simp [Database.UpdateGrade, h, hfind, DbError.category]

/-- Witness for C5 at concrete inputs: an all-empty update request on
`st4`, and a request for the absent identity `zzz` on `st4`. -/
theorem C5_witness :
    (sgE.GradeID = "" ∧
      Database.UpdateGrade st4 (some sgE) = (.error .gradeIDEmpty, st4) ∧
      DbError.gradeIDEmpty.category = .invalidArgument) ∧
    (sgMissing.GradeID ≠ "" ∧
      st4.rows.all (fun r => !(r.GradeID == sgMissing.GradeID)) = true ∧
      (Database.UpdateGrade st4 (some sgMissing)).1 = .error .noRows ∧
      (Database.UpdateGrade st4 (some sgMissing)).2.rows = st4.rows ∧
      DbError.noRows.category = .notFound) :=
  ⟨⟨by decide, (C5_update_invalid_and_missing st4 sgE).1 (by decide)⟩,
   ⟨by decide, by decide,
    (C5_update_invalid_and_missing st4 sgMissing).2 (by decide) (by decide)⟩⟩

/-- Update wire request targeting the absent identity `zzz`. -/
def req6 : UpdateSingleGradeRequest := { token := "t", grade := some sgMissing }

/-- Counterexample to claim C6: an update targeting an absent identity
is a `NotFound`-classified data-access failure, yet the service layer
returns it as a plain `fmt.Errorf` wrap whose wire status is
`codes.Unknown`, not `codes.NotFound` — `server/server.go` attaches a
status code only to authentication failures, so no 1:1 translation of
`InvalidArgument`/`NotFound` takes place, and the wrapped message
carries the storage-engine error. -/
theorem C6_counterexample_notfound_not_translated :
    (GradesServer.UpdateSingleGrade realDB envOk dbState0 req6).1 =
      .error (.wrapped "failed to update single grade" .noRows) ∧
    DbError.noRows.category = .notFound ∧
    (ServerError.wrapped "failed to update single grade" .noRows).wireCode = .unknownCode ∧
    WireCode.unknownCode ≠ WireCode.notFoundCode := by decide

/-- Claim C6 as amended: for every RPC, every data-access failure is
surfaced to the caller — wrapped with the operation message and carrying
the data-access error unchanged — but without any per-category
translation: the resulting wire status is `codes.Unknown` regardless of
whether the failure is `InvalidArgument`- or `NotFound`-classified. -/
theorem C6_failures_surfaced_untranslated {σ : Type} (impl : DBImpl σ)
    (env : AuthEnv) (st st1 : σ) (e : DbError) :
    (∀ req : AddSingleGradeRequest, VerifyToken env req.token = true →
      impl.addGrade st req.grade = (.error e, st1) →
      GradesServer.AddSingleGrade impl env st req =
        (.error (.wrapped "failed to add single grade" e), st1, 1) ∧
      (ServerError.wrapped "failed to add single grade" e).wireCode = .unknownCode) ∧
    (∀ req : UpdateSingleGradeRequest, VerifyToken env req.token = true →
      impl.updateGrade st req.grade = (.error e, st1) →
      GradesServer.UpdateSingleGrade impl env st req =
        (.error (.wrapped "failed to update single grade" e), st1, 1) ∧
      (ServerError.wrapped "failed to update single grade" e).wireCode = .unknownCode) ∧
    (∀ req : RemoveSingleGradeRequest, VerifyToken env req.token = true →
      impl.removeGrade st req.gradeID = (.error e, st1) →
      GradesServer.RemoveSingleGrade impl env st req =
        (.error (.wrapped "failed to remove single grade" e), st1, 1) ∧
      (ServerError.wrapped "failed to remove single grade" e).wireCode = .unknownCode) ∧
    (∀ req : GetCourseGradesRequest, VerifyToken env req.token = true →
      impl.getCourseGrades st req.courseID req.semester = (.error e, st1) →
      GradesServer.GetCourseGrades impl env st req =
        (.error (.wrapped "failed to get course grades" e), st1, 1) ∧
      (ServerError.wrapped "failed to get course grades" e).wireCode = .unknownCode) ∧
    (∀ req : GetStudentCourseGradesRequest, VerifyToken env req.token = true →
      impl.getStudentCourseGrades st req.courseID req.semester req.studentID =
        (.error e, st1) →
      GradesServer.GetStudentCourseGrades impl env st req =
        (.error (.wrapped "failed to get student course grades" e), st1, 1) ∧
      (ServerError.wrapped "failed to get student course grades" e).wireCode =
        .unknownCode) ∧
    (∀ req : GetStudentSemesterGradesRequest, VerifyToken env req.token = true →
      impl.getStudentSemesterGrades st req.studentID req.semester = (.error e, st1) →
      GradesServer.GetStudentSemesterGrades impl env st req =
        (.error (.wrapped "failed to get student semester grades" e), st1, 1) ∧
      (ServerError.wrapped "failed to get student semester grades" e).wireCode =
        .unknownCode) := by
  refine ⟨fun req hv himpl => ?_, fun req hv himpl => ?_, fun req hv himpl => ?_,
          fun req hv himpl => ?_, fun req hv himpl => ?_, fun req hv himpl => ?_⟩ <;>
    simp [GradesServer.AddSingleGrade, GradesServer.UpdateSingleGrade,
          GradesServer.RemoveSingleGrade, GradesServer.GetCourseGrades,
          GradesServer.GetStudentCourseGrades, GradesServer.GetStudentSemesterGrades,
          hv, himpl, ServerError.wireCode]

/-- Witness for C6 at a concrete input: the update RPC over the
store-backed implementation with the absent identity `zzz`. -/
theorem C6_witness :
    VerifyToken envOk req6.token = true ∧
    realDB.updateGrade dbState0 req6.grade =
      (.error .noRows, { rows := [], nextID := 0, now := 0, queries := 1 }) ∧
    GradesServer.UpdateSingleGrade realDB envOk dbState0 req6 =
      (.error (.wrapped "failed to update single grade" .noRows),
       { rows := [], nextID := 0, now := 0, queries := 1 }, 1) ∧
    (ServerError.wrapped "failed to update single grade" .noRows).wireCode =
      .unknownCode :=
  ⟨by decide, by decide,
   (C6_failures_surfaced_untranslated realDB envOk dbState0
      { rows := [], nextID := 0, now := 0, queries := 1 } .noRows).2.1 req6
      (by decide) (by decide)⟩

/-- Claim C7: for each of the six RPCs, when token verification fails
the handler returns the `Unauthenticated` error immediately: the store
state is untouched and the number of data-access operations invoked is
zero. -/
theorem C7_unauthenticated_blocks_data_access {σ : Type} (impl : DBImpl σ)
    (env : AuthEnv) (st : σ) (tok : String)
    (h : VerifyToken env tok = false) :
    (∀ g, GradesServer.AddSingleGrade impl env st { token := tok, grade := g } =
      (.error (.unauthenticated "authentication failed"), st, 0)) ∧
    (∀ g, GradesServer.UpdateSingleGrade impl env st { token := tok, grade := g } =
      (.error (.unauthenticated "authentication failed"), st, 0)) ∧
    (∀ gid, GradesServer.RemoveSingleGrade impl env st { token := tok, gradeID := gid } =
      (.error (.unauthenticated "authentication failed"), st, 0)) ∧
    (∀ cid sem, GradesServer.GetCourseGrades impl env st
        { token := tok, courseID := cid, semester := sem } =
      (.error (.unauthenticated "authentication failed"), st, 0)) ∧
    (∀ cid sem sid, GradesServer.GetStudentCourseGrades impl env st
        { token := tok, courseID := cid, semester := sem, studentID := sid } =
      (.error (.unauthenticated "authentication failed"), st, 0)) ∧
    (∀ sid sem, GradesServer.GetStudentSemesterGrades impl env st
        { token := tok, studentID := sid, semester := sem } =
      (.error (.unauthenticated "authentication failed"), st, 0)) := by
  refine ⟨fun g => ?_, fun g => ?_, fun gid => ?_, fun cid sem => ?_,
          fun cid sem sid => ?_, fun sid sem => ?_⟩ <;>
    simp [GradesServer.AddSingleGrade, GradesServer.UpdateSingleGrade,
          GradesServer.RemoveSingleGrade, GradesServer.GetCourseGrades,
          GradesServer.GetStudentCourseGrades, GradesServer.GetStudentSemesterGrades, h]

/-- Authentication environment with no injected `Claims` and a base
verifier that rejects every token. -/
def envDeny : AuthEnv := { claimsInjected := false, baseVerify := fun _ => false }

/-- Witness for C7: all six RPCs with a rejected token over the
store-backed implementation on the one-row store `st4`. -/
theorem C7_witness :
    VerifyToken envDeny "bad" = false ∧
    GradesServer.AddSingleGrade realDB envDeny st4 { token := "bad", grade := some sgNoID } =
      (.error (.unauthenticated "authentication failed"), st4, 0) ∧
    GradesServer.UpdateSingleGrade realDB envDeny st4 { token := "bad", grade := some upd4 } =
      (.error (.unauthenticated "authentication failed"), st4, 0) ∧
    GradesServer.RemoveSingleGrade realDB envDeny st4 { token := "bad", gradeID := "g-1" } =
      (.error (.unauthenticated "authentication failed"), st4, 0) ∧
    GradesServer.GetCourseGrades realDB envDeny st4
        { token := "bad", courseID := "MATH101", semester := "2025A" } =
      (.error (.unauthenticated "authentication failed"), st4, 0) ∧
    GradesServer.GetStudentCourseGrades realDB envDeny st4
        { token := "bad", courseID := "MATH101", semester := "2025A", studentID := "s1" } =
      (.error (.unauthenticated "authentication failed"), st4, 0) ∧
    GradesServer.GetStudentSemesterGrades realDB envDeny st4
        { token := "bad", studentID := "s1", semester := "2025A" } =
      (.error (.unauthenticated "authentication failed"), st4, 0) :=
  ⟨by decide,
   (C7_unauthenticated_blocks_data_access realDB envDeny st4 "bad" (by decide)).1
     (some sgNoID),
   (C7_unauthenticated_blocks_data_access realDB envDeny st4 "bad" (by decide)).2.1
     (some upd4),
   (C7_unauthenticated_blocks_data_access realDB envDeny st4 "bad" (by decide)).2.2.1
     "g-1",
   (C7_unauthenticated_blocks_data_access realDB envDeny st4 "bad" (by decide)).2.2.2.1
     "MATH101" "2025A",
   (C7_unauthenticated_blocks_data_access realDB envDeny st4 "bad" (by decide)).2.2.2.2.1
     "MATH101" "2025A" "s1",
   (C7_unauthenticated_blocks_data_access realDB envDeny st4 "bad" (by decide)).2.2.2.2.2
     "s1" "2025A"⟩

/-- Counterexample to claim C8 as stated for every call: with an empty
store nothing matches the query `("", "2025A")`, so the claim demands
the empty list without error, but `Database.GetCourseGrades` rejects the
empty `course_id` with `ErrCourseIDEmpty` before querying. -/
theorem C8_counterexample_empty_course_id :
    Database.GetCourseGrades dbState0 "" "2025A" = (.error .courseIDEmpty, dbState0) ∧
    dbState0.rows.filter (fun g => g.CourseID == "" && g.Semester == "2025A") = [] := by
  decide

/-- Claim C8 as amended: for every store state and every non-empty
`course_id`, `Database.GetCourseGrades` succeeds and returns exactly the
stored records whose `course_id` and `semester` both match — the empty
list, without error, when none match. -/
theorem C8_get_course_grades_filter (st : DbState) (cid sem : String)
    (h : cid ≠ "") :
    (Database.GetCourseGrades st cid sem).1 =
      .ok (st.rows.filter (fun g => g.CourseID == cid && g.Semester == sem)) ∧
    ∀ g : Grade,
      g ∈ st.rows.filter (fun g => g.CourseID == cid && g.Semester == sem) ↔
        g ∈ st.rows ∧ g.CourseID = cid ∧ g.Semester = sem := by
  constructor
  · simp [Database.GetCourseGrades, h]
  · intro g
    simp [List.mem_filter, and_assoc]

/-- Three stored `MATH101` rows: two in semester `2025A`, one in
`2025B`. -/
def gMathA1 : Grade :=
  { gRow1 with GradeID := "g-1", StudentID := "s1" }

def gMathA2 : Grade :=
  { gRow1 with GradeID := "g-2", StudentID := "s2", GradeValue := "B" }

def gMathB : Grade :=
  { gRow1 with GradeID := "g-3", StudentID := "s3", Semester := "2025B" }

/-- Store state for the filter scenario of spec section 8. -/
def stMath : DbState :=
  { rows := [gMathA1, gMathA2, gMathB], nextID := 3, now := 7, queries := 0 }

/-- Witness for C8: the query `("MATH101", "2025A")` over `stMath`
returns exactly the two matching rows. -/
theorem C8_witness :
    ("MATH101" : String) ≠ "" ∧
    (Database.GetCourseGrades stMath "MATH101" "2025A").1 = .ok [gMathA1, gMathA2] :=
  ⟨by decide,
   ((C8_get_course_grades_filter stMath "MATH101" "2025A" (by decide)).1).trans
     (by decide)⟩

/-- The per-row identity map of `replaceByID` is the identity whenever
the replacement row carries the targeted key. -/
theorem replaceByID_map_gradeID (rows : List Grade) (gid : String) (u : Grade)
    (hu : u.GradeID = gid) :
    (replaceByID rows gid u).map (fun r => r.GradeID) =
      rows.map (fun r => r.GradeID) := by
  induction rows with
  | nil => rfl
  | cons a l ih =>
    by_cases h : a.GradeID = gid
    · simpa [replaceByID, h, hu] using ih
    · simpa [replaceByID, h] using ih

/-- A row whose key differs from the targeted one survives
`replaceByID` unchanged. -/
theorem mem_replaceByID_of_ne (rows : List Grade) (gid : String) (u : Grade)
    (r : Grade) (hr : r ∈ rows) (hne : r.GradeID ≠ gid) :
    r ∈ replaceByID rows gid u :=
  List.mem_map.mpr ⟨r, hr, by simp [hne]⟩

/-- Claim C9: the update half of the claim holds and is proved
universally — the stored identity list is preserved pointwise by every
update, and a row whose identity is not the targeted one is untouched,
so update is keyed solely by `grade_id`.  The delete half fails in the
code: `Database.RemoveGrade` builds its delete without any Where
clause, the mapper refuses it, and the record named by the requested
`grade_id` survives — evaluated concretely on the one-row store `st4`,
deleting `g-1` errors and leaves `gRow1` in place, so no delete ever
removes the record its `grade_id` targets. -/
theorem C9_update_keyed_by_id_delete_broken :
    (∀ (st : DbState) (g : Option SingleGrade),
      ((Database.UpdateGrade st g).2.rows.map (fun r => r.GradeID)) =
        st.rows.map (fun r => r.GradeID)) ∧
    (∀ (st : DbState) (g : Option SingleGrade) (r : Grade),
      r ∈ st.rows → r.GradeID ≠ GetGradeID g →
        r ∈ (Database.UpdateGrade st g).2.rows) ∧
    (Database.RemoveGrade st4 "g-1" = (.error .noWhereClause, st4) ∧
      gRow1.GradeID = "g-1" ∧
      gRow1 ∈ (Database.RemoveGrade st4 "g-1").2.rows) := by
  refine ⟨?_, ?_, by decide⟩
  · intro st g
    cases g with
    | none => rfl
    | some g =>
      by_cases hid : g.GradeID = ""
      · simp [Database.UpdateGrade, hid]
      · rcases hfind : st.rows.find? (fun r => r.GradeID == g.GradeID) with _ | existing
        · simp [Database.UpdateGrade, hid, hfind]
        · have hkey : existing.GradeID = g.GradeID := by
            have hx := List.find?_some hfind
            simpa using hx
          simp only [Database.UpdateGrade, hid, hfind, if_neg hid]
          exact replaceByID_map_gradeID st.rows g.GradeID _ hkey
  · intro st g r hr hne
    cases g with
    | none => exact hr
    | some g =>
      by_cases hid : g.GradeID = ""
      · simpa [Database.UpdateGrade, hid] using hr
      · rcases hfind : st.rows.find? (fun x => x.GradeID == g.GradeID) with _ | existing
        · simpa [Database.UpdateGrade, hid, hfind] using hr
        · simp only [Database.UpdateGrade, hid, hfind, if_neg hid]
          exact mem_replaceByID_of_ne st.rows g.GradeID _ r hr
            (by simpa [GetGradeID] using hne)

/-- Update request targeting identity `g-1` in `stMath`. -/
def upd9 : SingleGrade := { sg0 with GradeID := "g-1", GradeValue := "C" }

/-- Witness for C9 on the three-row store `stMath`: identities preserved
by the update targeting `g-1`, and the untargeted row `g-3` untouched. -/
theorem C9_witness :
    (Database.UpdateGrade stMath (some upd9)).2.rows.map (fun r => r.GradeID) =
      stMath.rows.map (fun r => r.GradeID) ∧
    (gMathB ∈ stMath.rows ∧ gMathB.GradeID ≠ GetGradeID (some upd9) ∧
      gMathB ∈ (Database.UpdateGrade stMath (some upd9)).2.rows) :=
  ⟨C9_update_keyed_by_id_delete_broken.1 stMath (some upd9),
   ⟨by decide, by decide,
    C9_update_keyed_by_id_delete_broken.2.1 stMath (some upd9) gMathB
      (by decide) (by decide)⟩⟩

/-- Claim C10: at the data-access boundary the three retrieval
operations validate their key argument and fail — with an
`InvalidArgument`-style sentinel, the full state (including the count of
issued SQL statements) unchanged — whenever the key is empty:
`GetCourseGrades` on an empty `course_id`, `GetStudentCourseGrades` and
`GetStudentSemesterGrades` on an empty `student_id`. -/
theorem C10_reads_reject_empty_keys :
    (∀ (st : DbState) (semester : String),
      Database.GetCourseGrades st "" semester = (.error .courseIDEmpty, st)) ∧
    (∀ (st : DbState) (courseID semester : String),
      Database.GetStudentCourseGrades st courseID semester "" =
        (.error .studentIDEmpty, st)) ∧
    (∀ (st : DbState) (semester : String),
      Database.GetStudentSemesterGrades st "" semester =
        (.error .studentIDEmpty, st)) ∧
    DbError.courseIDEmpty.category = .invalidArgument ∧
    DbError.studentIDEmpty.category = .invalidArgument := by
  refine ⟨fun st sem => ?_, fun st cid sem => ?_, fun st sem => ?_, rfl, rfl⟩ <;>
    simp [Database.GetCourseGrades, Database.GetStudentCourseGrades,
          Database.GetStudentSemesterGrades]
